import Mathlib

set_option maxRecDepth 40000

/-!
Verification of the exam-question generation core of the repository
(`app/core/grading/generator.py` and `app/core/llm/client.py`).

The Python source is shallowly embedded: pure text processing becomes pure
Lean functions on `String`/`List Char`, Python `float` similarity arithmetic
becomes exact `ℚ` arithmetic, the per-instance dedup `set` becomes a
`List String` with `List.insert`, and the two retry loops become fuel-indexed
recursions over an oracle `Nat → _` that supplies the outcome each attempt
observes from the model gateway plus validation.

The modules `app/core/llm/guardrails.py` (validate_response),
`app/core/llm/prompts.py` (load_prompt/format_prompt) and
`app/core/schemas/llm_contracts.py` (the pydantic contracts) are referenced by
the source under study but are not part of the sources available here; they
are modelled from the specification where indicated.
-/

namespace ExamGen

/-- Modelled from the spec: `GeneratedQuestion` of
`app/core/schemas/llm_contracts.py` (absent from the available sources).
Spec §3: `{question_text: string, context: string, rubric: string}`. -/
structure GeneratedQuestion where
  question_text : String
  context : String
  rubric : String
deriving DecidableEq

/-- Modelled from the spec: `GeneratedQuestionWithNumber` of
`app/core/schemas/llm_contracts.py`: a `GeneratedQuestion` plus
`question_number` (a Python `int`, modelled as `Int`). -/
structure GeneratedQuestionWithNumber where
  question_number : Int
  question_text : String
  context : String
  rubric : String
deriving DecidableEq

/-- Modelled from the spec: `GeneratedExam` of
`app/core/schemas/llm_contracts.py`: an ordered sequence of
`GeneratedQuestionWithNumber`. -/
structure GeneratedExam where
  questions : List GeneratedQuestionWithNumber
deriving DecidableEq

/-- Accumulating helper for `pySplit`: scans the character list, flushing the
accumulated word at each whitespace run (empty pieces are dropped, matching
Python `str.split()` with no separator). -/
def wordsAux : List Char → List Char → List String
  | acc, [] => if acc = [] then [] else [String.mk acc.reverse]
  | acc, c :: rest =>
    if c.isWhitespace then
      if acc = [] then wordsAux [] rest
      else String.mk acc.reverse :: wordsAux [] rest
    else wordsAux (c :: acc) rest

/-- Python `str.split()` with no separator: split on whitespace runs and
drop empty pieces. -/
def pySplit (s : String) : List String :=
  wordsAux [] s.toList

/-- Python `str.lower()` (the texts under study are ASCII, where Python and
`Char.toLower` agree). -/
def pyLower (s : String) : String :=
  String.mk (s.toList.map Char.toLower)

/-- Python `" ".join(words)`. -/
def joinSpace : List String → String
  | [] => ""
  | [w] => w
  | w :: rest => w ++ " " ++ joinSpace rest

/-- Source `QuestionGenerator._normalize` (generator.py line 113):
`" ".join(text.lower().split())`. -/
def _normalize (text : String) : String :=
  joinSpace (pySplit (pyLower text))

/-- Python `max` on two floats (modelled over `ℚ`). -/
def pyMax (a b : ℚ) : ℚ :=
  if a ≤ b then b else a

/-- Python `min` on two ints (modelled over `ℕ`). -/
def pyMin (a b : ℕ) : ℕ :=
  if a ≤ b then a else b

/-- Source `QuestionGenerator._calculate_similarity` (generator.py lines 117-141),
with Python float arithmetic modelled exactly over `ℚ`. -/
def _calculate_similarity (text1 text2 : String) : ℚ :=
  let words1 : Finset String := (pySplit text1).toFinset
  let words2 : Finset String := (pySplit text2).toFinset
  if words1 = ∅ ∨ words2 = ∅ then 0
  else
    let intersection : ℕ := (words1 ∩ words2).card
    let union : ℕ := (words1 ∪ words2).card
    if union = 0 then 0
    else
      let similarity : ℚ := (intersection : ℚ) / (union : ℚ)
      let min_len : ℕ := pyMin words1.card words2.card
      if min_len > 0 then
        pyMax similarity ((intersection : ℚ) / (min_len : ℚ) * (8 / 10))
      else similarity

/-- Insertion step of insertion sort (ascending). -/
def insertSorted (x : Int) : List Int → List Int
  | [] => [x]
  | y :: ys => if x ≤ y then x :: y :: ys else y :: insertSorted x ys

/-- Python `sorted` on a list of ints, modelled as insertion sort (any
correct ascending sort agrees with Python `sorted` on `int` lists). -/
def pySorted : List Int → List Int
  | [] => []
  | x :: xs => insertSorted x (pySorted xs)

/-- Failure classes of `LLMClient.generate_json` (client.py): the missing
credential `RuntimeError` (lines 70-74), the terminal `RuntimeError` after the
3-attempt retry loop carrying the last underlying cause (lines 115-118), and
the `json.JSONDecodeError` carrying a preview of the raw text and the cleaned
text (lines 159-172). -/
inductive LLMError where
  | configError
  | terminalError (cause : String)
  | parseError (rawPreview : String) (doc : String)
deriving DecidableEq

/-- Modelled from the spec: the outcome one attempt of the single-question
retry loop observes from `generate_json` followed by
`validate_response(response_dict, GeneratedQuestion)`.
`validate_response` lives in `app/core/llm/guardrails.py`, which is absent
from the available sources; per spec §4.3 it "checks required keys exist and
have the expected primitive types" and "on any mismatch, returns a sentinel
invalid rather than raising". Hence each attempt yields either a raised
gateway error (`Except.error`), an invalid-shape sentinel (`Except.ok none`),
or a validated question (`Except.ok (some q)`). -/
abbrev QOut := Except LLMError (Option GeneratedQuestion)

/-- Modelled from the spec: the outcome one attempt of the batch retry loop
observes from `generate_json` followed by
`validate_response(response_dict, GeneratedExam)` (see `QOut`). -/
abbrev EOut := Except LLMError (Option GeneratedExam)

/-- The mutable per-instance state of `QuestionGenerator`:
`_question_counter` and the dedup ledger `generated_questions`
(generator.py lines 18-19; the Python `set` is modelled as a duplicate-free
list via `List.insert`). -/
structure GenState where
  question_counter : Int
  generated_questions : List String
deriving DecidableEq

/-- First entry of the canned single-question fallback bank
(generator.py lines 146-150). -/
def fallbackQ1 : GeneratedQuestion :=
  { question_text := "Explain the fundamental principles of data structures. Discuss the differences between arrays and linked lists, and when you would use each."
  , context := "Data structures are fundamental to computer science. Arrays store elements in contiguous memory, while linked lists use nodes with pointers."
  , rubric := "Grading criteria: (1) Understanding of arrays - 25 points, (2) Understanding of linked lists - 25 points, (3) Comparison - 25 points, (4) Use cases - 25 points." }

/-- Second entry of the canned single-question fallback bank
(generator.py lines 151-155). -/
def fallbackQ2 : GeneratedQuestion :=
  { question_text := "Describe the concept of algorithm time complexity (Big O notation). Provide examples of O(1), O(n), and O(n²) algorithms."
  , context := "Algorithm complexity analysis helps developers understand how algorithms scale. Big O notation describes worst-case time complexity."
  , rubric := "Grading criteria: (1) Explanation of Big O - 30 points, (2) O(1) example - 20 points, (3) O(n) example - 20 points, (4) O(n²) example - 20 points, (5) Importance - 10 points." }

/-- Third entry of the canned single-question fallback bank
(generator.py lines 156-160). -/
def fallbackQ3 : GeneratedQuestion :=
  { question_text := "Explain the concept of recursion in programming. Discuss its advantages and disadvantages, and provide an example."
  , context := "Recursion is a programming technique where a function calls itself. It\x27s used in tree traversal and divide-and-conquer algorithms."
  , rubric := "Grading criteria: (1) Explanation - 25 points, (2) Advantages - 20 points, (3) Disadvantages - 20 points, (4) Example - 30 points, (5) Clarity - 5 points." }

/-- The canned single-question fallback bank of
`QuestionGenerator._get_fallback_question` (generator.py lines 145-161). -/
def fallback_questions : List GeneratedQuestion :=
  [fallbackQ1, fallbackQ2, fallbackQ3]

/-- The generic parametrized placeholder of `_get_fallback_question`
(generator.py lines 174-179). -/
def genericFallbackQuestion (question_number : Int) : GeneratedQuestion :=
  { question_text := "Generic CS question #" ++ toString question_number ++ "."
  , context := "This is a fallback question."
  , rubric := "Grading criteria: complete answer - 100 points." }

/-- Source `QuestionGenerator._get_fallback_question` (generator.py lines 143-179):
the first canned question whose normalized text is not in the ledger, else
the generic placeholder. -/
def _get_fallback_question (question_number : Int) (ledger : List String) : GeneratedQuestion :=
  match fallback_questions.find? (fun fb => decide (_normalize fb.question_text ∉ ledger)) with
  | some fb => fb
  | none => genericFallbackQuestion question_number

/-- The attempt loop of `QuestionGenerator.generate_question`
(generator.py lines 57-106): up to `fuel` attempts starting at attempt index
`k`; a raised gateway error is caught (`except Exception: continue`), an
invalid response or a normalized text already in the ledger retries; a novel
valid question is accepted. The ledger is not modified by failed attempts
(the source only mutates it on accept, line 101). -/
def qAttempts (ledger : List String) (oracle : Nat → QOut) : Nat → Nat → Option GeneratedQuestion
  | _, 0 => none
  | k, fuel+1 =>
    match oracle k with
    | Except.error _ => qAttempts ledger oracle (k+1) fuel
    | Except.ok none => qAttempts ledger oracle (k+1) fuel
    | Except.ok (some question) =>
      if _normalize question.question_text ∈ ledger then qAttempts ledger oracle (k+1) fuel
      else some question

/-- Source `QuestionGenerator.generate_question` (generator.py lines 50-111).
The exception handler on lines 104-106 catches every exception (including the
gateway configuration error), so the translation is a total function: it
returns the accepted question, or after 5 failed attempts the fallback, and
adds the returned question normalized text to the ledger. -/
def generate_question (st : GenState) (question_number? : Option Int)
    (oracle : Nat → QOut) : GeneratedQuestion × GenState :=
  let question_number : Int :=
    match question_number? with
    | none => st.question_counter + 1
    | some n => n
  let counter : Int :=
    match question_number? with
    | none => st.question_counter + 1
    | some _ => st.question_counter
  match qAttempts st.generated_questions oracle 0 5 with
  | some question =>
      (question, ⟨counter, List.insert (_normalize question.question_text) st.generated_questions⟩)
  | none =>
      let fallback := _get_fallback_question question_number st.generated_questions
      (fallback, ⟨counter, List.insert (_normalize fallback.question_text) st.generated_questions⟩)

/-- A sequence of `generate_question` calls on one generator instance,
returning the questions in call order and the final state. -/
def runCalls (st : GenState) : List (Option Int × (Nat → QOut)) → List GeneratedQuestion × GenState
  | [] => ([], st)
  | (qn, oracle) :: rest =>
    let r := generate_question st qn oracle
    let rr := runCalls r.2 rest
    (r.1 :: rr.1, rr.2)

/-- Python `list(range(1, num_questions + 1))` (generator.py line 267). -/
def expectedNumbers (num_questions : Nat) : List Int :=
  (List.range num_questions).map (fun i => Int.ofNat (i + 1))

/-- The duplicate/similarity scan of `generate_exam`
(generator.py lines 272-299): each question normalized text is compared with
every earlier one in the batch; the attempt is flagged on an exact duplicate
or a pairwise similarity above 0.7. -/
def dupScan : List String → List String → Bool
  | _, [] => false
  | seen, current :: rest =>
    decide (current ∈ seen)
      || seen.any (fun e => decide (_calculate_similarity current e > 7/10))
      || dupScan (seen ++ [current]) rest

/-- The attempt loop of `QuestionGenerator.generate_exam`
(generator.py lines 249-310): a raised gateway error is caught, an invalid
response, a wrong count, non-sequential numbering or a flagged duplicate pair
retries; otherwise the batch is accepted atomically. -/
def examAttempts (num_questions : Nat) (oracle : Nat → EOut) : Nat → Nat → Option GeneratedExam
  | _, 0 => none
  | k, fuel+1 =>
    match oracle k with
    | Except.error _ => examAttempts num_questions oracle (k+1) fuel
    | Except.ok none => examAttempts num_questions oracle (k+1) fuel
    | Except.ok (some exam) =>
      if exam.questions.length ≠ num_questions then examAttempts num_questions oracle (k+1) fuel
      else if pySorted (exam.questions.map (fun q => q.question_number)) ≠ expectedNumbers num_questions then
        examAttempts num_questions oracle (k+1) fuel
      else if dupScan [] (exam.questions.map (fun q => _normalize q.question_text)) then
        examAttempts num_questions oracle (k+1) fuel
      else some exam

/-- The canned exam template bank of `QuestionGenerator._get_fallback_exam`
(generator.py lines 330-349), parametrized by the topic; index taken modulo 3
by the caller. -/
def fallbackExamTemplate (topic : String) : Nat → GeneratedQuestionWithNumber
  | 0 =>
    { question_number := 1
    , question_text := "Explain the fundamental concepts related to " ++ topic ++ ". Provide examples and discuss their importance."
    , context := "This question tests understanding of core concepts in " ++ topic ++ "."
    , rubric := "Grading: Understanding of concepts (40 points), Examples (30 points), Discussion of importance (30 points)." }
  | 1 =>
    { question_number := 2
    , question_text := "Compare and contrast different approaches or methods within " ++ topic ++ ". When would you use each?"
    , context := "This question evaluates the ability to analyze different approaches in " ++ topic ++ "."
    , rubric := "Grading: Comparison (40 points), Contrast (30 points), Use cases (30 points)." }
  | _ =>
    { question_number := 3
    , question_text := "Describe a real-world application of " ++ topic ++ ". Explain how it works and why it\x27s effective."
    , context := "This question tests practical understanding of " ++ topic ++ "."
    , rubric := "Grading: Application description (40 points), Explanation (30 points), Effectiveness (30 points)." }

/-- Source `QuestionGenerator._get_fallback_exam` (generator.py lines 326-359):
cycle through the 3 canned templates, renumbering sequentially `1..n`. -/
def _get_fallback_exam (topic : String) (num_questions : Nat) : GeneratedExam :=
  ⟨(List.range num_questions).map (fun i =>
      { fallbackExamTemplate topic (i % 3) with question_number := Int.ofNat (i + 1) })⟩

/-- Source `QuestionGenerator.generate_exam` (generator.py lines 181-313).
`additional_details` only affects the composed prompt (spec §4.1: prompt
composition is pure formatting with no failure modes), so it does not affect
the control flow modelled here. Every failure path ends in the fallback exam
(the last-attempt exception handler on lines 306-309 and the post-loop
return on line 313 both produce it). -/
def generate_exam (topic : String) (num_questions : Nat) (_additional_details : String)
    (oracle : Nat → EOut) : GeneratedExam :=
  match examAttempts num_questions oracle 0 5 with
  | some exam => exam
  | none => _get_fallback_exam topic num_questions

/-- The four whitespace characters skipped by Python `json.loads`. -/
def jsonWs (c : Char) : Bool :=
  c = ' ' || c = '\t' || c = '\n' || c = '\r'

/-- Skip JSON whitespace. -/
def skipWs (s : List Char) : List Char :=
  s.dropWhile jsonWs

/-- JSON values as produced by Python `json.loads` (number tokens are kept
symbolic: no claim under study depends on numeric values). -/
inductive JsonVal where
  | null
  | bool (b : Bool)
  | num (token : String)
  | str (s : String)
  | arr (items : List JsonVal)
  | obj (members : List (String × JsonVal))

def isHexDigit (c : Char) : Bool :=
  c.isDigit || ('a' ≤ c && c ≤ 'f') || ('A' ≤ c && c ≤ 'F')

def hexVal (c : Char) : Nat :=
  if c.isDigit then c.toNat - '0'.toNat
  else if 'a' ≤ c && c ≤ 'f' then c.toNat - 'a'.toNat + 10
  else c.toNat - 'A'.toNat + 10

/-- Body of a JSON string literal (after the opening quote), with the escape
sequences accepted by `json.loads` in strict mode; raw control characters are
rejected. (Surrogate-pair recombination is not modelled; no text under study
contains `\u` escapes.) -/
def parseStringBody : List Char → List Char → Option (String × List Char)
  | _, [] => none
  | acc, c :: rest =>
    if c = '"' then some (String.mk acc.reverse, rest)
    else if c = '\\' then
      match rest with
      | '"' :: r2 => parseStringBody ('"' :: acc) r2
      | '\\' :: r2 => parseStringBody ('\\' :: acc) r2
      | '/' :: r2 => parseStringBody ('/' :: acc) r2
      | 'b' :: r2 => parseStringBody ('\x08' :: acc) r2
      | 'f' :: r2 => parseStringBody ('\x0c' :: acc) r2
      | 'n' :: r2 => parseStringBody ('\n' :: acc) r2
      | 'r' :: r2 => parseStringBody ('\r' :: acc) r2
      | 't' :: r2 => parseStringBody ('\t' :: acc) r2
      | 'u' :: h1 :: h2 :: h3 :: h4 :: r2 =>
        if isHexDigit h1 && isHexDigit h2 && isHexDigit h3 && isHexDigit h4 then
          parseStringBody
            (Char.ofNat (((hexVal h1 * 16 + hexVal h2) * 16 + hexVal h3) * 16 + hexVal h4) :: acc) r2
        else none
      | _ => none
    else if c.toNat < 32 then none
    else parseStringBody (c :: acc) rest

/-- Longest digit run at the front. -/
def takeDigits : List Char → List Char × List Char
  | [] => ([], [])
  | c :: rest =>
    if c.isDigit then
      let (ds, r) := takeDigits rest
      (c :: ds, r)
    else ([], c :: rest)

/-- Optional exponent part of a JSON number token. -/
def afterExpOpt (tok : List Char) : List Char → Option (String × List Char)
  | [] => some (String.mk tok, [])
  | c :: r =>
    if c = 'e' ∨ c = 'E' then
      match r with
      | [] => none
      | sc :: r2 =>
        if sc = '+' ∨ sc = '-' then
          let (ds, r3) := takeDigits r2
          if ds = [] then none else some (String.mk (tok ++ c :: sc :: ds), r3)
        else
          let (ds, r3) := takeDigits r
          if ds = [] then none else some (String.mk (tok ++ c :: ds), r3)
    else some (String.mk tok, c :: r)

/-- Optional fraction part, then optional exponent part. -/
def afterInt (tok : List Char) : List Char → Option (String × List Char)
  | '.' :: r =>
    let (ds, r2) := takeDigits r
    if ds = [] then none else afterExpOpt (tok ++ '.' :: ds) r2
  | s => afterExpOpt tok s

/-- A JSON number token: `-?(0|[1-9][0-9]*)(\.[0-9]+)?([eE][+-]?[0-9]+)?`. -/
def parseNumTok (s : List Char) : Option (String × List Char) :=
  let sgn : List Char × List Char :=
    match s with
    | '-' :: r => (['-'], r)
    | _ => ([], s)
  match sgn.2 with
  | [] => none
  | c :: r =>
    if c = '0' then afterInt (sgn.1 ++ ['0']) r
    else if c.isDigit then
      let (ds, r2) := takeDigits (c :: r)
      afterInt (sgn.1 ++ ds) r2
    else none

/-- Parser modes: a value, the members of an object after `{` (when not
immediately closed), or the items of an array after `[`. -/
inductive PMode where
  | value
  | objMembers (acc : List (String × JsonVal))
  | arrItems (acc : List JsonVal)

/-- Recursive-descent JSON parser, fuel-indexed so that recursion is
structural; every recursive call strictly consumes input, so fuel
`length + 1` behaves as unbounded recursion. -/
def runP : Nat → PMode → List Char → Option (JsonVal × List Char)
  | 0, _, _ => none
  | fuel+1, PMode.value, s =>
    match skipWs s with
    | [] => none
    | '{' :: r =>
      match skipWs r with
      | '}' :: r2 => some (JsonVal.obj [], r2)
      | r2 => runP fuel (PMode.objMembers []) r2
    | '[' :: r =>
      match skipWs r with
      | ']' :: r2 => some (JsonVal.arr [], r2)
      | r2 => runP fuel (PMode.arrItems []) r2
    | '"' :: r => (parseStringBody [] r).map (fun p => (JsonVal.str p.1, p.2))
    | 't' :: 'r' :: 'u' :: 'e' :: r => some (JsonVal.bool true, r)
    | 'f' :: 'a' :: 'l' :: 's' :: 'e' :: r => some (JsonVal.bool false, r)
    | 'n' :: 'u' :: 'l' :: 'l' :: r => some (JsonVal.null, r)
    | s2 => (parseNumTok s2).map (fun p => (JsonVal.num p.1, p.2))
  | fuel+1, PMode.objMembers acc, s =>
    match skipWs s with
    | '"' :: r =>
      match parseStringBody [] r with
      | none => none
      | some (key, r2) =>
        match skipWs r2 with
        | ':' :: r3 =>
          match runP fuel PMode.value r3 with
          | none => none
          | some (v, r4) =>
            match skipWs r4 with
            | ',' :: r5 => runP fuel (PMode.objMembers (acc ++ [(key, v)])) r5
            | '}' :: r5 => some (JsonVal.obj (acc ++ [(key, v)]), r5)
            | _ => none
        | _ => none
    | _ => none
  | fuel+1, PMode.arrItems acc, s =>
    match runP fuel PMode.value s with
    | none => none
    | some (v, r) =>
      match skipWs r with
      | ',' :: r2 => runP fuel (PMode.arrItems (acc ++ [v])) r2
      | ']' :: r2 => some (JsonVal.arr (acc ++ [v]), r2)
      | _ => none

/-- Python `json.loads`: parse one JSON document; anything but whitespace
after it is an error ("Extra data"). (`NaN`/`Infinity` extensions are not
modelled; no text under study uses them.) -/
def json_parse (s : String) : Option JsonVal :=
  let cs := s.toList
  match runP (cs.length + 1) PMode.value cs with
  | some (v, rest) => if skipWs rest = [] then some v else none
  | none => none

/-- Python `str.strip()` (the texts under study are ASCII, where Python and
`Char.isWhitespace` agree). -/
def pyStrip (s : String) : String :=
  String.mk (((s.toList.dropWhile Char.isWhitespace).reverse.dropWhile Char.isWhitespace).reverse)

/-- Whether the pattern starts the list (kernel-friendly model of
Python `str.startswith`). -/
def startsWithChars : List Char → List Char → Bool
  | [], _ => true
  | _ :: _, [] => false
  | p :: ps, c :: cs => p == c && startsWithChars ps cs

/-- The fence-stripping step of `generate_json` (client.py lines 126-132):
if the stripped text starts with a code fence, drop the first line (or the
first three characters if there is no newline), drop a trailing fence if
present, and strip again. -/
def cleanFences (s : String) : String :=
  let cs := s.toList
  if startsWithChars ['\x60', '\x60', '\x60'] cs then
    let afterOpen : List Char :=
      if cs.contains '\n' then (cs.dropWhile (fun c => c ≠ '\n')).drop 1
      else cs.drop 3
    let afterClose : List Char :=
      if startsWithChars ['\x60', '\x60', '\x60'] afterOpen.reverse then
        afterOpen.take (afterOpen.length - 3)
      else afterOpen
    pyStrip (String.mk afterClose)
  else s

/-- The brace-matching loop of `generate_json` (client.py lines 139-148):
`depth` is the running brace count; the span ends at the `}` that returns the
count to zero. Braces inside JSON string literals are counted like any other
character, exactly as in the source. -/
def scanToMatch : Nat → List Char → List Char → Option (List Char)
  | _, _, [] => none
  | depth, acc, c :: rest =>
    if c = '{' then scanToMatch (depth + 1) (c :: acc) rest
    else if c = '}' then
      if depth = 1 then some (c :: acc).reverse
      else scanToMatch (depth - 1) (c :: acc) rest
    else scanToMatch depth (c :: acc) rest

/-- The brace-isolation step of `generate_json` (client.py lines 136-152):
if a `{` occurs, take the span from the first `{` to its matching `}`;
if there is no `{`, or no matching `}`, the text is left unchanged. -/
def isolateBraces (s : String) : String :=
  let cs := s.toList
  match cs.dropWhile (fun c => c ≠ '{') with
  | [] => s
  | post =>
    match scanToMatch 0 [] post with
    | some span => String.mk span
    | none => s

/-- Python `s[:n]`. -/
def pyTake (n : Nat) (s : String) : String :=
  String.mk (s.toList.take n)

/-- The post-processing of `LLMClient.generate_json` (client.py
lines 122-172): strip, strip fences, isolate the first brace span, parse;
on failure raise a parse error carrying the first 500 characters of the raw
text (line 169) and the cleaned text (the `doc` of the re-raised
`JSONDecodeError`). -/
def generate_json_post (result_text : String) : Except LLMError JsonVal :=
  let cleaned := isolateBraces (cleanFences (pyStrip result_text))
  match json_parse cleaned with
  | some v => Except.ok v
  | none => Except.error (LLMError.parseError (pyTake 500 result_text) cleaned)

/-- Modelled from the spec: the post-processing as claim C9 words it
(spec §4.2 (a)-(c)): strip a fence; if the remaining text is pure JSON,
parse it directly; only otherwise isolate the first brace span and parse
that; on failure raise a parse error carrying previews of raw and cleaned
text. Used solely to compare the spec wording with `generate_json_post`. -/
def generate_json_post_spec (result_text : String) : Except LLMError JsonVal :=
  let stripped := cleanFences (pyStrip result_text)
  match json_parse stripped with
  | some v => Except.ok v
  | none =>
    let cleaned := isolateBraces stripped
    match json_parse cleaned with
    | some v => Except.ok v
    | none => Except.error (LLMError.parseError (pyTake 500 result_text) cleaned)

/-- The retry loop `call_llm_with_retry` of `LLMClient.generate_json`
(client.py lines 84-118): up to 3 attempts against the transport oracle
(each outcome is the completion text or a transient error, modelled as its
message string); on exhaustion a terminal error carrying the last
underlying cause. -/
def call_llm_with_retry (oracle : Nat → Except String String) :
    Nat → Nat → Option String → Except LLMError String
  | _, 0, last =>
    Except.error (LLMError.terminalError (match last with | some e => e | none => ""))
  | k, fuel+1, _ =>
    match oracle k with
    | Except.ok content => Except.ok content
    | Except.error e => call_llm_with_retry oracle (k+1) fuel (some e)

/-- Source `LLMClient.generate_json` (client.py lines 54-172): fail fast with the
configuration error when the credential is absent (Python falsy string,
lines 68-74), otherwise run the 3-attempt retry loop and post-process the
resulting text. -/
def generate_json (api_key : String) (oracle : Nat → Except String String) :
    Except LLMError JsonVal :=
  if api_key = "" then Except.error LLMError.configError
  else
    match call_llm_with_retry oracle 0 3 none with
    | Except.error e => Except.error e
    | Except.ok result_text => generate_json_post result_text

/-- The question number a `generate_question` call works with: the supplied
one, or the auto-incremented counter (generator.py lines 53-55). -/
def usedQuestionNumber (st : GenState) (question_number? : Option Int) : Int :=
  match question_number? with
  | none => st.question_counter + 1
  | some n => n

/-- One attempt of the single-question loop fails against ledger `ledger`:
the gateway raised, validation rejected, or the text is a duplicate. -/
def attemptFails (ledger : List String) (out : QOut) : Prop :=
  match out with
  | Except.error _ => True
  | Except.ok none => True
  | Except.ok (some q) => _normalize q.question_text ∈ ledger

/-- An oracle on which every gateway call raises the missing-credential
configuration error. -/
def errOracleQ : Nat → QOut :=
  fun _ => Except.error LLMError.configError

/-- An exam oracle on which every gateway call raises the missing-credential
configuration error. -/
def errOracleE : Nat → EOut :=
  fun _ => Except.error LLMError.configError

/-! ### Lemmas about sorting -/

lemma pySorted_eq_self_of_sorted : ∀ l : List Int, List.Sorted (· ≤ ·) l → pySorted l = l
  | [], _ => rfl
  | a :: l, h => by
    rw [List.sorted_cons] at h
    have ih := pySorted_eq_self_of_sorted l h.2
    show insertSorted a (pySorted l) = a :: l
    rw [ih]
    cases l with
    | nil => rfl
    | cons b l2 =>
      have hab : a ≤ b := h.1 b (List.mem_cons_self b l2)
      simp [insertSorted, hab]

lemma sorted_expectedNumbers (n : Nat) : List.Sorted (· ≤ ·) (expectedNumbers n) := by
  unfold expectedNumbers List.Sorted
  rw [List.pairwise_map]
  refine (List.pairwise_lt_range n).imp ?_
  intro a b h
  exact Int.ofNat_le.mpr (by omega)

/-! ### Lemmas about the batch attempt loop -/

/-- A batch accepted by the attempt loop came from a validated oracle
response and passed the three structural guards. -/
lemma examAttempts_some {n : Nat} {oracle : Nat → EOut} :
    ∀ {fuel k : Nat} {e : GeneratedExam}, examAttempts n oracle k fuel = some e →
      (∃ m, k ≤ m ∧ m < k + fuel ∧ oracle m = Except.ok (some e))
      ∧ e.questions.length = n
      ∧ pySorted (e.questions.map (fun q => q.question_number)) = expectedNumbers n
      ∧ dupScan [] (e.questions.map (fun q => _normalize q.question_text)) = false
  | 0, k, e, h => by simp [examAttempts] at h
  | fuel+1, k, e, h => by
    cases ho : oracle k with
    | error err =>
      simp only [examAttempts, ho] at h
      obtain ⟨⟨m, hm1, hm2, hm3⟩, rest⟩ := examAttempts_some h
      exact ⟨⟨m, by omega, by omega, hm3⟩, rest⟩
    | ok oq =>
      cases oq with
      | none =>
        simp only [examAttempts, ho] at h
        obtain ⟨⟨m, hm1, hm2, hm3⟩, rest⟩ := examAttempts_some h
        exact ⟨⟨m, by omega, by omega, hm3⟩, rest⟩
      | some exam =>
        simp only [examAttempts, ho] at h
        by_cases h1 : exam.questions.length ≠ n
        · rw [if_pos h1] at h
          obtain ⟨⟨m, hm1, hm2, hm3⟩, rest⟩ := examAttempts_some h
          exact ⟨⟨m, by omega, by omega, hm3⟩, rest⟩
        · rw [if_neg h1] at h
          by_cases h2 :
              pySorted (exam.questions.map (fun q => q.question_number)) ≠ expectedNumbers n
          · rw [if_pos h2] at h
            obtain ⟨⟨m, hm1, hm2, hm3⟩, rest⟩ := examAttempts_some h
            exact ⟨⟨m, by omega, by omega, hm3⟩, rest⟩
          · rw [if_neg h2] at h
            by_cases h3 : dupScan [] (exam.questions.map (fun q => _normalize q.question_text)) = true
            · rw [if_pos h3] at h
              obtain ⟨⟨m, hm1, hm2, hm3⟩, rest⟩ := examAttempts_some h
              exact ⟨⟨m, by omega, by omega, hm3⟩, rest⟩
            · rw [if_neg h3] at h
              cases h
              exact ⟨⟨k, le_refl k, by omega, ho⟩, not_not.mp h1, not_not.mp h2,
                Bool.not_eq_true _ ▸ h3⟩

/-! ### Shape of the fallback exam -/

lemma fallback_exam_length (topic : String) (n : Nat) :
    (_get_fallback_exam topic n).questions.length = n := by
  simp [_get_fallback_exam]

lemma fallback_exam_numbers (topic : String) (n : Nat) :
    (_get_fallback_exam topic n).questions.map (fun q => q.question_number)
      = expectedNumbers n := by
  unfold _get_fallback_exam expectedNumbers
  rw [List.map_map]
  rfl

/-- C2: every value returned by `generate_exam` — accepted model batch or
fallback exam — contains exactly `n` questions, and the sorted list of their
`question_number` fields is `[1, 2, ..., n]` (generator.py lines 261-270 for
the accepted path, 351-359 for the fallback). -/
theorem C2_exam_count_and_numbering (topic : String) (n : Nat) (details : String)
    (oracle : Nat → EOut) :
    (generate_exam topic n details oracle).questions.length = n
    ∧ pySorted ((generate_exam topic n details oracle).questions.map (fun q => q.question_number))
        = expectedNumbers n := by
  unfold generate_exam
  cases he : examAttempts n oracle 0 5 with
  | some e =>
    obtain ⟨-, h1, h2, -⟩ := examAttempts_some he
    exact ⟨h1, h2⟩
  | none =>
    exact ⟨fallback_exam_length topic n,
      by rw [fallback_exam_numbers]; exact pySorted_eq_self_of_sorted _ (sorted_expectedNumbers n)⟩

/-- C10: a `generate_question` call leaves the dedup ledger equal to the
old ledger with (at most) one insertion: the normalized text of the question
actually returned. Failed attempts never touch the ledger: the attempt loop
(`qAttempts`) is parameterized by the unchanged ledger, mirroring the source,
which mutates `generated_questions` only on accept (line 101) and on the
fallback exit (line 110). -/
theorem C10_ledger_frame (st : GenState) (qn? : Option Int) (oracle : Nat → QOut) :
    (generate_question st qn? oracle).2.generated_questions
      = List.insert (_normalize (generate_question st qn? oracle).1.question_text)
          st.generated_questions
    ∧ ∀ x, x ∈ (generate_question st qn? oracle).2.generated_questions →
        x = _normalize (generate_question st qn? oracle).1.question_text
          ∨ x ∈ st.generated_questions := by
  unfold generate_question
  cases hq : qAttempts st.generated_questions oracle 0 5 with
  | some q => exact ⟨rfl, fun x hx => List.mem_insert_iff.mp hx⟩
  | none => exact ⟨rfl, fun x hx => List.mem_insert_iff.mp hx⟩

/-- Witness for C10: on a concrete all-failing call from a fresh state, the
final ledger is the insertion of the normalized text of the returned
question, and a concrete member of the final ledger is that text or was
present before. -/
theorem C10_ledger_frame_witness :
    (generate_question ⟨0, []⟩ (some 1) errOracleQ).2.generated_questions
      = List.insert
          (_normalize (generate_question ⟨0, []⟩ (some 1) errOracleQ).1.question_text) []
    ∧ (_normalize fallbackQ1.question_text
        = _normalize (generate_question ⟨0, []⟩ (some 1) errOracleQ).1.question_text
      ∨ _normalize fallbackQ1.question_text ∈ ([] : List String)) :=
  ⟨(C10_ledger_frame ⟨0, []⟩ (some 1) errOracleQ).1,
    (C10_ledger_frame ⟨0, []⟩ (some 1) errOracleQ).2
      (_normalize fallbackQ1.question_text) (by decide)⟩

/-! ### Lemmas about the single-question attempt loop -/

/-- A question accepted by the attempt loop came from a validated oracle
response and its normalized text was not in the ledger. -/
lemma qAttempts_some {ledger : List String} {oracle : Nat → QOut} :
    ∀ {fuel k : Nat} {q : GeneratedQuestion}, qAttempts ledger oracle k fuel = some q →
      (∃ m, k ≤ m ∧ m < k + fuel ∧ oracle m = Except.ok (some q))
      ∧ _normalize q.question_text ∉ ledger
  | 0, k, q, h => by simp [qAttempts] at h
  | fuel+1, k, q, h => by
    cases ho : oracle k with
    | error err =>
      simp only [qAttempts, ho] at h
      obtain ⟨⟨m, hm1, hm2, hm3⟩, hfresh⟩ := qAttempts_some h
      exact ⟨⟨m, by omega, by omega, hm3⟩, hfresh⟩
    | ok oq =>
      cases oq with
      | none =>
        simp only [qAttempts, ho] at h
        obtain ⟨⟨m, hm1, hm2, hm3⟩, hfresh⟩ := qAttempts_some h
        exact ⟨⟨m, by omega, by omega, hm3⟩, hfresh⟩
      | some question =>
        simp only [qAttempts, ho] at h
        by_cases hmem : _normalize question.question_text ∈ ledger
        · rw [if_pos hmem] at h
          obtain ⟨⟨m, hm1, hm2, hm3⟩, hfresh⟩ := qAttempts_some h
          exact ⟨⟨m, by omega, by omega, hm3⟩, hfresh⟩
        · rw [if_neg hmem] at h
          cases h
          exact ⟨⟨k, le_refl k, by omega, ho⟩, hmem⟩

/-- If every attempt in the window fails, the loop accepts nothing. -/
lemma qAttempts_none_of_fails {ledger : List String} {oracle : Nat → QOut} :
    ∀ {fuel k : Nat}, (∀ m, k ≤ m → m < k + fuel → attemptFails ledger (oracle m)) →
      qAttempts ledger oracle k fuel = none
  | 0, _, _ => rfl
  | fuel+1, k, h => by
    have hk := h k (le_refl k) (by omega)
    cases ho : oracle k with
    | error err =>
      simp only [qAttempts, ho]
      exact qAttempts_none_of_fails (fun m h1 h2 => h m (by omega) (by omega))
    | ok oq =>
      cases oq with
      | none =>
        simp only [qAttempts, ho]
        exact qAttempts_none_of_fails (fun m h1 h2 => h m (by omega) (by omega))
      | some question =>
        rw [ho] at hk
        have hk2 : _normalize question.question_text ∈ ledger := hk
        simp only [qAttempts, ho]
        rw [if_pos hk2]
        exact qAttempts_none_of_fails (fun m h1 h2 => h m (by omega) (by omega))

/-- Where the result of `generate_question` comes from: an accepted attempt,
or the fallback after the loop returned nothing. -/
lemma gq_result (st : GenState) (qn? : Option Int) (oracle : Nat → QOut) :
    (∃ q, qAttempts st.generated_questions oracle 0 5 = some q
        ∧ (generate_question st qn? oracle).1 = q)
    ∨ (qAttempts st.generated_questions oracle 0 5 = none
        ∧ (generate_question st qn? oracle).1
            = _get_fallback_question (usedQuestionNumber st qn?) st.generated_questions) := by
  unfold generate_question usedQuestionNumber
  cases hq : qAttempts st.generated_questions oracle 0 5 with
  | some q => exact Or.inl ⟨q, rfl, rfl⟩
  | none => exact Or.inr ⟨rfl, rfl⟩

/-- The final ledger of a `generate_question` call is the old one with the
normalized text of the returned question inserted. -/
lemma gq_ledger_insert (st : GenState) (qn? : Option Int) (oracle : Nat → QOut) :
    (generate_question st qn? oracle).2.generated_questions
      = List.insert (_normalize (generate_question st qn? oracle).1.question_text)
          st.generated_questions := by
  unfold generate_question
  cases hq : qAttempts st.generated_questions oracle 0 5 with
  | some q => rfl
  | none => rfl

lemma gq_mem_final (st : GenState) (qn? : Option Int) (oracle : Nat → QOut) :
    _normalize (generate_question st qn? oracle).1.question_text
      ∈ (generate_question st qn? oracle).2.generated_questions := by
  rw [gq_ledger_insert]
  exact List.mem_insert_self _ _

lemma gq_mono (st : GenState) (qn? : Option Int) (oracle : Nat → QOut) {x : String}
    (hx : x ∈ st.generated_questions) :
    x ∈ (generate_question st qn? oracle).2.generated_questions := by
  rw [gq_ledger_insert]
  exact List.mem_insert_of_mem hx

/-- Selection behavior of the fallback bank: the first canned question whose
normalized text is not in the ledger, else the generic placeholder. -/
lemma fallback_question_cases (qnum : Int) (L : List String) :
    (_normalize fallbackQ1.question_text ∉ L ∧ _get_fallback_question qnum L = fallbackQ1)
    ∨ (_normalize fallbackQ1.question_text ∈ L ∧ _normalize fallbackQ2.question_text ∉ L
        ∧ _get_fallback_question qnum L = fallbackQ2)
    ∨ (_normalize fallbackQ1.question_text ∈ L ∧ _normalize fallbackQ2.question_text ∈ L
        ∧ _normalize fallbackQ3.question_text ∉ L ∧ _get_fallback_question qnum L = fallbackQ3)
    ∨ (_normalize fallbackQ1.question_text ∈ L ∧ _normalize fallbackQ2.question_text ∈ L
        ∧ _normalize fallbackQ3.question_text ∈ L
        ∧ _get_fallback_question qnum L = genericFallbackQuestion qnum) := by
  unfold _get_fallback_question fallback_questions
  by_cases h1 : _normalize fallbackQ1.question_text ∈ L
  · have d1 : decide (_normalize fallbackQ1.question_text ∉ L) = false :=
      decide_eq_false (not_not_intro h1)
    by_cases h2 : _normalize fallbackQ2.question_text ∈ L
    · have d2 : decide (_normalize fallbackQ2.question_text ∉ L) = false :=
        decide_eq_false (not_not_intro h2)
      by_cases h3 : _normalize fallbackQ3.question_text ∈ L
      · have d3 : decide (_normalize fallbackQ3.question_text ∉ L) = false :=
          decide_eq_false (not_not_intro h3)
        refine Or.inr (Or.inr (Or.inr ⟨h1, h2, h3, ?_⟩))
        simp [List.find?, d1, d2, d3]
      · have d3 : decide (_normalize fallbackQ3.question_text ∉ L) = true := decide_eq_true h3
        refine Or.inr (Or.inr (Or.inl ⟨h1, h2, h3, ?_⟩))
        simp [List.find?, d1, d2, d3]
    · have d2 : decide (_normalize fallbackQ2.question_text ∉ L) = true := decide_eq_true h2
      refine Or.inr (Or.inl ⟨h1, h2, ?_⟩)
      simp [List.find?, d1, d2]
  · have d1 : decide (_normalize fallbackQ1.question_text ∉ L) = true := decide_eq_true h1
    refine Or.inl ⟨h1, ?_⟩
    simp [List.find?, d1]

/-- A returned question that is not the generic placeholder is fresh: its
normalized text was not in the ledger before the call. -/
lemma gq_fresh (st : GenState) (qn? : Option Int) (oracle : Nat → QOut)
    (hng : ∀ m : Int, (generate_question st qn? oracle).1 ≠ genericFallbackQuestion m) :
    _normalize (generate_question st qn? oracle).1.question_text ∉ st.generated_questions := by
  rcases gq_result st qn? oracle with ⟨q, hq, hres⟩ | ⟨hq, hres⟩
  · rw [hres]
    exact (qAttempts_some hq).2
  · rcases fallback_question_cases (usedQuestionNumber st qn?) st.generated_questions with
      ⟨hf, he⟩ | ⟨h1, hf, he⟩ | ⟨h1, h2, hf, he⟩ | ⟨h1, h2, h3, he⟩
    · rw [hres, he]; exact hf
    · rw [hres, he]; exact hf
    · rw [hres, he]; exact hf
    · exact absurd (hres.trans he) (hng (usedQuestionNumber st qn?))

/-! ### Lemmas about sequences of calls -/

lemma runCalls_mono {x : String} : ∀ (calls : List (Option Int × (Nat → QOut))) (st : GenState),
    x ∈ st.generated_questions → x ∈ (runCalls st calls).2.generated_questions
  | [], _, hx => hx
  | (qn, o) :: rest, st, hx => by
    simp only [runCalls]
    exact runCalls_mono rest _ (gq_mono st qn o hx)

/-- Any question returned later in a trace, if it is not the generic
placeholder, differs (in normalized text) from anything already present in
the initial ledger of the trace. -/
lemma runCalls_fresh_ne {x : String} : ∀ (calls : List (Option Int × (Nat → QOut))) (st : GenState),
    x ∈ st.generated_questions →
    ∀ (j : Nat) (qj : GeneratedQuestion), (runCalls st calls).1.get? j = some qj →
      (∀ m : Int, qj ≠ genericFallbackQuestion m) →
      _normalize qj.question_text ≠ x
  | [], st, _, j, qj, hj, _ => by simp [runCalls] at hj
  | (qn, o) :: rest, st, hx, j, qj, hj, hng => by
    simp only [runCalls] at hj
    cases j with
    | zero =>
      injection hj with h1
      subst h1
      exact fun heq => (gq_fresh st qn o hng) (heq ▸ hx)
    | succ j2 =>
      exact runCalls_fresh_ne rest _ (gq_mono st qn o hx) j2 qj hj hng

/-- Two questions returned by one trace, the later one not being the generic
placeholder, have different normalized texts. -/
lemma runCalls_pairwise : ∀ (calls : List (Option Int × (Nat → QOut))) (st : GenState)
    (i j : Nat) (qi qj : GeneratedQuestion), i < j →
    (runCalls st calls).1.get? i = some qi →
    (runCalls st calls).1.get? j = some qj →
    (∀ m : Int, qj ≠ genericFallbackQuestion m) →
    _normalize qi.question_text ≠ _normalize qj.question_text
  | [], st, i, j, qi, qj, hij, hi, hj, hng => by simp [runCalls] at hi
  | (qn, o) :: rest, st, i, j, qi, qj, hij, hi, hj, hng => by
    simp only [runCalls] at hi hj
    cases i with
    | zero =>
      cases j with
      | zero => omega
      | succ j2 =>
        injection hi with h1
        subst h1
        exact fun heq =>
          runCalls_fresh_ne rest _ (gq_mem_final st qn o) j2 qj hj hng heq.symm
    | succ i2 =>
      cases j with
      | zero => omega
      | succ j2 =>
        exact runCalls_pairwise rest _ i2 j2 qi qj (by omega) hi hj hng

/-- C5: when all 5 attempts of a `generate_question` call fail (gateway
error, invalid shape, or duplicate), the call returns the fallback: the
first entry of the fixed 3-question canned bank whose normalized text is not
in the ledger, or, if all 3 are in the ledger, the generic placeholder whose
text carries the question index; the normalized text of the chosen fallback is
added to the ledger before return. The fallback path is a total function of
`(question index, ledger)` — it always produces a question and never raises
(generator.py lines 107-111 and 143-179). -/
theorem C5_exhaustion_returns_fallback (st : GenState) (qn? : Option Int) (oracle : Nat → QOut)
    (h : ∀ k, k < 5 → attemptFails st.generated_questions (oracle k)) :
    ((generate_question st qn? oracle).1
        = _get_fallback_question (usedQuestionNumber st qn?) st.generated_questions
      ∧ (generate_question st qn? oracle).2.generated_questions
          = List.insert (_normalize (generate_question st qn? oracle).1.question_text)
              st.generated_questions)
    ∧ ((_normalize fallbackQ1.question_text ∉ st.generated_questions
          ∧ (generate_question st qn? oracle).1 = fallbackQ1)
        ∨ (_normalize fallbackQ1.question_text ∈ st.generated_questions
          ∧ _normalize fallbackQ2.question_text ∉ st.generated_questions
          ∧ (generate_question st qn? oracle).1 = fallbackQ2)
        ∨ (_normalize fallbackQ1.question_text ∈ st.generated_questions
          ∧ _normalize fallbackQ2.question_text ∈ st.generated_questions
          ∧ _normalize fallbackQ3.question_text ∉ st.generated_questions
          ∧ (generate_question st qn? oracle).1 = fallbackQ3)
        ∨ (_normalize fallbackQ1.question_text ∈ st.generated_questions
          ∧ _normalize fallbackQ2.question_text ∈ st.generated_questions
          ∧ _normalize fallbackQ3.question_text ∈ st.generated_questions
          ∧ (generate_question st qn? oracle).1
              = genericFallbackQuestion (usedQuestionNumber st qn?)
          ∧ (generate_question st qn? oracle).1.question_text
              = "Generic CS question #" ++ toString (usedQuestionNumber st qn?) ++ ".")) := by
  have hnone : qAttempts st.generated_questions oracle 0 5 = none :=
    qAttempts_none_of_fails (fun m h1 h2 => h m (by omega))
  rcases gq_result st qn? oracle with ⟨q, hq, _⟩ | ⟨_, hres⟩
  · rw [hnone] at hq
    cases hq
  · refine ⟨⟨hres, gq_ledger_insert st qn? oracle⟩, ?_⟩
    rcases fallback_question_cases (usedQuestionNumber st qn?) st.generated_questions with
      ⟨hf, he⟩ | ⟨h1, hf, he⟩ | ⟨h1, h2, hf, he⟩ | ⟨h1, h2, h3, he⟩
    · exact Or.inl ⟨hf, hres.trans he⟩
    · exact Or.inr (Or.inl ⟨h1, hf, hres.trans he⟩)
    · exact Or.inr (Or.inr (Or.inl ⟨h1, h2, hf, hres.trans he⟩))
    · exact Or.inr (Or.inr (Or.inr ⟨h1, h2, h3, hres.trans he, by rw [hres.trans he]; rfl⟩))

/-- Witness for C5: a fresh generator with every attempt raising the
missing-credential error satisfies the all-fail hypothesis, and the call
returns the fallback with its text inserted into the ledger. -/
theorem C5_exhaustion_returns_fallback_witness :
    (∀ k, k < 5 → attemptFails (GenState.mk 0 []).generated_questions (errOracleQ k))
    ∧ (generate_question ⟨0, []⟩ (some 2) errOracleQ).1
        = _get_fallback_question (usedQuestionNumber ⟨0, []⟩ (some 2)) [] :=
  ⟨fun _ _ => trivial,
    (C5_exhaustion_returns_fallback ⟨0, []⟩ (some 2) errOracleQ (fun _ _ => trivial)).1.1⟩

/-- C1 counterexample: with the credential missing, every gateway call
raises the configuration error; yet `generate_question` returns the canned
fallback and `generate_exam` returns the fallback exam — the configuration
error is absorbed by the generic `except Exception` handlers
(generator.py lines 104-106 and 304-310) instead of propagating to the
caller as the claim states. -/
theorem C1_counterexample :
    (generate_question ⟨0, []⟩ (some 1) errOracleQ).1 = fallbackQ1
    ∧ generate_exam "Computer Science" 2 "" errOracleE
        = _get_fallback_exam "Computer Science" 2 := by
  decide

/-- C1 (amended): no exception of any failure class — including the
missing-credential configuration error — reaches the caller of the two
public operations: whatever the gateway/validation outcomes are, each call
returns a value, namely a question (respectively exam) validated on one of
the 5 attempts, or the deterministic fallback. In the translation every
`raise` of the gateway is an `Except.error` oracle outcome, and the source's
`except Exception` handlers (generator.py lines 104-106, 304-310) turn every
one of them into a retry or a fallback, so both operations are total
functions. -/
theorem C1_no_exception_reaches_caller (st : GenState) (qn? : Option Int)
    (oq : Nat → QOut) (topic : String) (n : Nat) (details : String) (oe : Nat → EOut) :
    ((∃ k, k < 5 ∧ oq k = Except.ok (some (generate_question st qn? oq).1))
      ∨ (generate_question st qn? oq).1
          = _get_fallback_question (usedQuestionNumber st qn?) st.generated_questions)
    ∧ ((∃ k, k < 5 ∧ oe k = Except.ok (some (generate_exam topic n details oe)))
      ∨ generate_exam topic n details oe = _get_fallback_exam topic n) := by
  constructor
  · rcases gq_result st qn? oq with ⟨q, hq, hres⟩ | ⟨_, hres⟩
    · obtain ⟨⟨m, hm1, hm2, hm3⟩, -⟩ := qAttempts_some hq
      exact Or.inl ⟨m, by omega, by rw [hres]; exact hm3⟩
    · exact Or.inr hres
  · unfold generate_exam
    cases he : examAttempts n oe 0 5 with
    | some e =>
      obtain ⟨⟨m, hm1, hm2, hm3⟩, -⟩ := examAttempts_some he
      exact Or.inl ⟨m, by omega, hm3⟩
    | none => exact Or.inr rfl

/-- Five `generate_question` calls with an explicitly supplied question
number 7, each with every attempt failing. -/
def fiveCalls : List (Option Int × (Nat → QOut)) :=
  [(some 7, errOracleQ), (some 7, errOracleQ), (some 7, errOracleQ),
   (some 7, errOracleQ), (some 7, errOracleQ)]

/-- C4 counterexample: on a fresh instance, five all-failing calls with the
same explicit question number 7 exhaust the 3-entry canned bank, after which
the 4th and the 5th calls both return the generic placeholder
`Generic CS question #7.` — the 5th call repeats the normalized text of the
4th, refuting the claimed distinctness of successive returns. -/
theorem C4_counterexample :
    (runCalls ⟨0, []⟩ fiveCalls).1.get? 3 = (runCalls ⟨0, []⟩ fiveCalls).1.get? 4
    ∧ (runCalls ⟨0, []⟩ fiveCalls).1.get? 3 = some (genericFallbackQuestion 7) := by
  decide

/-- C4 (amended): across any sequence of `generate_question` calls on one
instance the ledger only grows, and the normalized text of each returned
question is distinct from the normalized text of every earlier returned
question, UNLESS the later question is the generic placeholder fallback —
the only return path without a ledger check (generator.py line 179). -/
theorem C4_ledger_growth_and_distinctness (st : GenState)
    (calls : List (Option Int × (Nat → QOut))) :
    (∀ x ∈ st.generated_questions, x ∈ (runCalls st calls).2.generated_questions)
    ∧ ∀ (i j : Nat) (qi qj : GeneratedQuestion), i < j →
        (runCalls st calls).1.get? i = some qi →
        (runCalls st calls).1.get? j = some qj →
        (∀ m : Int, qj ≠ genericFallbackQuestion m) →
        _normalize qi.question_text ≠ _normalize qj.question_text :=
  ⟨fun _ hx => runCalls_mono calls st hx,
    fun i j qi qj hij hi hj hng => runCalls_pairwise calls st i j qi qj hij hi hj hng⟩

/-- An oracle whose every attempt validates to a fixed question about DNS. -/
def wOracleA : Nat → QOut :=
  fun _ => Except.ok (some ⟨"What is DNS?", "c", "r"⟩)

/-- An oracle whose every attempt validates to a fixed question about TCP. -/
def wOracleB : Nat → QOut :=
  fun _ => Except.ok (some ⟨"Explain TCP handshakes.", "c", "r"⟩)

/-- Two accepted calls on a fresh instance. -/
def twoCalls : List (Option Int × (Nat → QOut)) :=
  [(some 1, wOracleA), (some 2, wOracleB)]

/-- Witness for C4 (amended): on a concrete two-call trace both hypotheses
hold and the two returned questions have distinct normalized texts. -/
theorem C4_ledger_growth_and_distinctness_witness :
    (runCalls ⟨0, []⟩ twoCalls).1.get? 0 = some ⟨"What is DNS?", "c", "r"⟩
    ∧ _normalize "What is DNS?" ≠ _normalize "Explain TCP handshakes." :=
  ⟨by decide,
    (C4_ledger_growth_and_distinctness ⟨0, []⟩ twoCalls).2 0 1
      ⟨"What is DNS?", "c", "r"⟩ ⟨"Explain TCP handshakes.", "c", "r"⟩ (by omega)
      (by decide) (by decide)
      (fun m hm => by simp [genericFallbackQuestion] at hm)⟩

/-! ### Lemmas about the similarity engine -/

lemma pyMax_eq_max (a b : ℚ) : pyMax a b = max a b := by
  unfold pyMax
  rw [max_def]

lemma pyMin_eq_min (a b : ℕ) : pyMin a b = min a b := by
  unfold pyMin
  rw [min_def]

lemma _calculate_similarity_comm (A B : String) :
    _calculate_similarity A B = _calculate_similarity B A := by
  simp only [_calculate_similarity]
  rw [Finset.inter_comm, Finset.union_comm, pyMin_eq_min, pyMin_eq_min, min_comm]
  exact if_congr or_comm rfl rfl

/-- C6: for all texts, `_calculate_similarity` returns 0 when either side
has zero words; otherwise it returns
`max(|A∩B| / |A∪B|, 0.8 × |A∩B| / min(|A|,|B|))` over the sets of unique
whitespace-separated words; and the result always lies in `[0, 1]`
(generator.py lines 117-141). -/
theorem C6_similarity_formula_and_bounds (A B : String) :
    (0 ≤ _calculate_similarity A B ∧ _calculate_similarity A B ≤ 1)
    ∧ (pySplit A = [] ∨ pySplit B = [] → _calculate_similarity A B = 0)
    ∧ (pySplit A ≠ [] → pySplit B ≠ [] →
        _calculate_similarity A B =
          max ((((pySplit A).toFinset ∩ (pySplit B).toFinset).card : ℚ)
                / (((pySplit A).toFinset ∪ (pySplit B).toFinset).card : ℚ))
              ((8 / 10) * ((((pySplit A).toFinset ∩ (pySplit B).toFinset).card : ℚ)
                / ((min (pySplit A).toFinset.card (pySplit B).toFinset.card : ℕ) : ℚ)))) := by
  by_cases hA : pySplit A = []
  · have hFA : (pySplit A).toFinset = ∅ := by rw [hA]; rfl
    have h0 : _calculate_similarity A B = 0 := by
      simp only [_calculate_similarity]
      rw [if_pos (Or.inl hFA)]
    exact ⟨⟨by rw [h0], by rw [h0]; norm_num⟩, fun _ => h0, fun hA2 _ => absurd hA hA2⟩
  · by_cases hB : pySplit B = []
    · have hFB : (pySplit B).toFinset = ∅ := by rw [hB]; rfl
      have h0 : _calculate_similarity A B = 0 := by
        simp only [_calculate_similarity]
        rw [if_pos (Or.inr hFB)]
      exact ⟨⟨by rw [h0], by rw [h0]; norm_num⟩, fun _ => h0, fun _ hB2 => absurd hB hB2⟩
    · have hFA : (pySplit A).toFinset ≠ ∅ :=
        fun h => hA ((List.toFinset_eq_empty_iff _).mp h)
      have hFB : (pySplit B).toFinset ≠ ∅ :=
        fun h => hB ((List.toFinset_eq_empty_iff _).mp h)
      have hcardA : 0 < (pySplit A).toFinset.card :=
        Finset.card_pos.mpr (Finset.nonempty_iff_ne_empty.mpr hFA)
      have hcardB : 0 < (pySplit B).toFinset.card :=
        Finset.card_pos.mpr (Finset.nonempty_iff_ne_empty.mpr hFB)
      have hUnion : 0 < ((pySplit A).toFinset ∪ (pySplit B).toFinset).card := by
        obtain ⟨a, ha⟩ := Finset.card_pos.mp hcardA
        exact Finset.card_pos.mpr ⟨a, Finset.mem_union_left _ ha⟩
      have hmin : 0 < pyMin (pySplit A).toFinset.card (pySplit B).toFinset.card := by
        rw [pyMin_eq_min]
        exact lt_min hcardA hcardB
      have hform : _calculate_similarity A B =
          max ((((pySplit A).toFinset ∩ (pySplit B).toFinset).card : ℚ)
                / (((pySplit A).toFinset ∪ (pySplit B).toFinset).card : ℚ))
              ((8 / 10) * ((((pySplit A).toFinset ∩ (pySplit B).toFinset).card : ℚ)
                / ((min (pySplit A).toFinset.card (pySplit B).toFinset.card : ℕ) : ℚ))) := by
        simp only [_calculate_similarity]
        rw [if_neg (by push_neg; exact ⟨hFA, hFB⟩), if_neg (Nat.pos_iff_ne_zero.mp hUnion),
          if_pos hmin, pyMax_eq_max, pyMin_eq_min, mul_comm]
      have hIU : ((pySplit A).toFinset ∩ (pySplit B).toFinset).card
          ≤ ((pySplit A).toFinset ∪ (pySplit B).toFinset).card :=
        Finset.card_le_card (Finset.inter_subset_union)
      have hImin : ((pySplit A).toFinset ∩ (pySplit B).toFinset).card
          ≤ min (pySplit A).toFinset.card (pySplit B).toFinset.card :=
        le_min (Finset.card_le_card Finset.inter_subset_left)
          (Finset.card_le_card Finset.inter_subset_right)
      have hminQ : (0 : ℚ) < ((min (pySplit A).toFinset.card (pySplit B).toFinset.card : ℕ) : ℚ) := by
        exact_mod_cast pyMin_eq_min _ _ ▸ hmin
      have hUQ : (0 : ℚ) < (((pySplit A).toFinset ∪ (pySplit B).toFinset).card : ℚ) := by
        exact_mod_cast hUnion
      refine ⟨⟨?_, ?_⟩, fun hor => absurd hor (by push_neg; exact ⟨hA, hB⟩), fun _ _ => hform⟩
      · rw [hform]
        exact le_max_of_le_left (div_nonneg (by positivity) (by positivity))
      · rw [hform]
        refine max_le ?_ ?_
        · rw [div_le_one hUQ]
          exact_mod_cast hIU
        · refine mul_le_one₀ (by norm_num) (div_nonneg (by positivity) (by positivity)) ?_
          rw [div_le_one hminQ]
          exact_mod_cast hImin

unseal Rat.mul Rat.inv Rat.add Rat.sub in
/-- Witness for C6: on `("", "alpha")` the zero-words hypothesis is
discharged and the similarity evaluates to 0; on `("a b", "b c")` it
evaluates to `max(1/3, 0.8 × 1/2) = 2/5`. -/
theorem C6_similarity_formula_and_bounds_witness :
    _calculate_similarity "" "alpha" = 0 ∧ _calculate_similarity "a b" "b c" = 2 / 5 :=
  ⟨(C6_similarity_formula_and_bounds "" "alpha").2.1 (Or.inl rfl), by decide⟩

/-! ### Lemmas about the batch duplicate scan -/

/-- A scan that finds no duplicates certifies the pairwise property for the
scanned list, and between the already-seen prefix and the scanned list. -/
lemma dupScan_false : ∀ (l seen : List String), dupScan seen l = false →
    l.Pairwise (fun e x => x ≠ e ∧ _calculate_similarity x e ≤ 7/10)
    ∧ ∀ e ∈ seen, ∀ x ∈ l, x ≠ e ∧ _calculate_similarity x e ≤ 7/10
  | [], seen, _ => ⟨List.Pairwise.nil, fun e _ x hx => absurd hx (List.not_mem_nil x)⟩
  | current :: rest, seen, h => by
    simp only [dupScan, Bool.or_eq_false_iff] at h
    obtain ⟨⟨hmem, hany⟩, hrec⟩ := h
    have hcur : current ∉ seen := of_decide_eq_false hmem
    have hsim : ∀ e ∈ seen, _calculate_similarity current e ≤ 7/10 := by
      intro e he
      have h2 := List.any_eq_false.mp hany e he
      exact not_lt.mp (fun hgt => h2 (decide_eq_true hgt))
    have ih := dupScan_false rest (seen ++ [current]) hrec
    constructor
    · refine List.Pairwise.cons ?_ ih.1
      intro x hx
      exact ih.2 current (List.mem_append_right seen (List.mem_singleton_self current)) x hx
    · intro e he x hx
      rcases List.mem_cons.mp hx with hx1 | hx2
      · subst hx1
        exact ⟨fun hxe => hcur (hxe ▸ he), hsim e he⟩
      · exact ih.2 e (List.mem_append_left _ he) x hx2

unseal Rat.mul Rat.inv Rat.add Rat.sub in
/-- C3 counterexample: the fallback exam for 4 questions on topic `"t"`
(returned when all 5 attempts fail) repeats the first canned template at
positions 1 and 4, so two distinct questions have identical normalized
texts, whose similarity is 1 > 0.7 — refuting the claim for fallback
batches (generator.py lines 351-357 cycle the 3 templates). -/
theorem C3_counterexample :
    ((generate_exam "t" 4 "" errOracleE).questions.map
        (fun q => _normalize q.question_text)).get? 0
      = some (_normalize "Explain the fundamental concepts related to t. Provide examples and discuss their importance.")
    ∧ ((generate_exam "t" 4 "" errOracleE).questions.map
        (fun q => _normalize q.question_text)).get? 0
      = ((generate_exam "t" 4 "" errOracleE).questions.map
        (fun q => _normalize q.question_text)).get? 3
    ∧ _calculate_similarity
        (_normalize "Explain the fundamental concepts related to t. Provide examples and discuss their importance.")
        (_normalize "Explain the fundamental concepts related to t. Provide examples and discuss their importance.")
      > 7/10 := by
  decide

/-- C3 (amended): in every batch returned through the accepted path (that
is, any return value other than the fallback exam), no two distinct
questions have similarity above 0.7: the batch passed the duplicate scan of
generator.py lines 272-299. Fallback exams are exempt: with more than 3
questions the canned templates repeat verbatim. -/
theorem C3_accepted_batches_dissimilar (topic : String) (n : Nat) (details : String)
    (oracle : Nat → EOut)
    (hacc : generate_exam topic n details oracle ≠ _get_fallback_exam topic n) :
    ∀ (i j : Nat) (qi qj : GeneratedQuestionWithNumber), i ≠ j →
      (generate_exam topic n details oracle).questions.get? i = some qi →
      (generate_exam topic n details oracle).questions.get? j = some qj →
      _calculate_similarity (_normalize qi.question_text) (_normalize qj.question_text)
        ≤ 7/10 := by
  cases he : examAttempts n oracle 0 5 with
  | none => exact absurd (by unfold generate_exam; rw [he]) hacc
  | some e =>
    have hgen : generate_exam topic n details oracle = e := by
      unfold generate_exam
      rw [he]
    obtain ⟨-, -, -, hdup⟩ := examAttempts_some he
    have hpw := (dupScan_false (e.questions.map (fun q => _normalize q.question_text)) [] hdup).1
    rw [List.pairwise_map] at hpw
    rw [List.pairwise_iff_get] at hpw
    intro i j qi qj hij hqi hqj
    rw [hgen] at hqi hqj
    obtain ⟨hi, hgi⟩ := List.get?_eq_some.mp hqi
    obtain ⟨hj, hgj⟩ := List.get?_eq_some.mp hqj
    rcases Nat.lt_or_ge i j with hlt | hge
    · have := hpw ⟨i, hi⟩ ⟨j, hj⟩ hlt
      rw [hgi, hgj] at this
      rw [_calculate_similarity_comm]
      exact this.2
    · have hlt2 : j < i := by omega
      have := hpw ⟨j, hj⟩ ⟨i, hi⟩ hlt2
      rw [hgi, hgj] at this
      exact this.2

/-- An exam oracle whose every attempt validates to a fixed well-formed
2-question batch with dissimilar questions. -/
def accOracle : Nat → EOut :=
  fun _ => Except.ok (some ⟨[⟨1, "What is DNS?", "c", "r"⟩,
    ⟨2, "Explain TCP congestion control.", "c", "r"⟩]⟩)

unseal Rat.mul Rat.inv Rat.add Rat.sub in
/-- Witness for C3 (amended): a concrete accepted batch differs from the
fallback exam, and the similarity of its two questions is within the threshold. -/
theorem C3_accepted_batches_dissimilar_witness :
    generate_exam "T" 2 "" accOracle ≠ _get_fallback_exam "T" 2
    ∧ _calculate_similarity (_normalize "What is DNS?")
        (_normalize "Explain TCP congestion control.") ≤ 7/10 :=
  ⟨by decide,
    C3_accepted_batches_dissimilar "T" 2 "" accOracle (by decide) 0 1
      ⟨1, "What is DNS?", "c", "r"⟩ ⟨2, "Explain TCP congestion control.", "c", "r"⟩
      (by omega) (by decide) (by decide)⟩

unseal Rat.mul Rat.inv Rat.add Rat.sub in
/-- C7 counterexample: for Q1 = "What is a hash table?" and
Q2 = "How does a hash table work?", normalization keeps punctuation, so
`table?` and `table` are different words: the Jaccard score is 2/9 ≈ 0.22
(more than 0.1 below the claimed ≈ 0.4) and the combined score is
8/25 = 0.32 (more than 0.1 below the claimed ≈ 0.536). -/
theorem C7_counterexample :
    (((pySplit (_normalize "What is a hash table?")).toFinset
        ∩ (pySplit (_normalize "How does a hash table work?")).toFinset).card : ℚ)
      / (((pySplit (_normalize "What is a hash table?")).toFinset
        ∪ (pySplit (_normalize "How does a hash table work?")).toFinset).card : ℚ) = 2/9
    ∧ (2/9 : ℚ) + 1/10 < 4/10
    ∧ _calculate_similarity (_normalize "What is a hash table?")
        (_normalize "How does a hash table work?") = 8/25
    ∧ (8/25 : ℚ) + 1/10 < 536/1000 := by
  decide

unseal Rat.mul Rat.inv Rat.add Rat.sub in
/-- C7 (amended): for Q1 = "What is a hash table?" and Q2 = "How does a hash
table work?", the shared words of the normalized forms are `a` and `hash`
(punctuation is kept, so `table?` ≠ `table`): Jaccard = 2/9, overlap
ratio = 2/5, combined score = max(2/9, 0.8 × 2/5) = 8/25 = 0.32, which is
below the 0.7 threshold, so the pair is accepted as distinct by the batch
novelty check. -/
theorem C7_hash_table_pair_accepted :
    _calculate_similarity (_normalize "What is a hash table?")
        (_normalize "How does a hash table work?") = 8/25
    ∧ (((pySplit (_normalize "What is a hash table?")).toFinset
        ∩ (pySplit (_normalize "How does a hash table work?")).toFinset).card : ℚ)
      / (((pySplit (_normalize "What is a hash table?")).toFinset
        ∪ (pySplit (_normalize "How does a hash table work?")).toFinset).card : ℚ) = 2/9
    ∧ (((pySplit (_normalize "What is a hash table?")).toFinset
        ∩ (pySplit (_normalize "How does a hash table work?")).toFinset).card : ℚ)
      / ((pyMin (pySplit (_normalize "What is a hash table?")).toFinset.card
          (pySplit (_normalize "How does a hash table work?")).toFinset.card : ℕ) : ℚ) = 2/5
    ∧ _calculate_similarity (_normalize "What is a hash table?")
        (_normalize "How does a hash table work?") ≤ 7/10
    ∧ dupScan [] [_normalize "What is a hash table?",
        _normalize "How does a hash table work?"] = false := by
  decide

/-! ### Claim theorems about the model gateway -/

/-- C8: in `LLMClient.generate_json`, a missing credential raises the
configuration error immediately — the result is the configuration error for
every transport oracle, so no completion attempt is consulted and nothing is
retried (client.py lines 68-74); with a credential present, a transient
exception is retried up to 3 times total, after which the terminal error
carrying the last underlying cause is raised (lines 93-118); a failure
followed by a success within the budget proceeds to post-processing of the
text of the successful attempt. -/
theorem C8_gateway_retry_behavior (api_key : String) (oracle : Nat → Except String String)
    (e0 e1 e2 : String) (c : String) :
    (generate_json "" oracle = Except.error LLMError.configError)
    ∧ (api_key ≠ "" → oracle 0 = Except.error e0 → oracle 1 = Except.error e1 →
        oracle 2 = Except.error e2 →
        generate_json api_key oracle = Except.error (LLMError.terminalError e2))
    ∧ (api_key ≠ "" → oracle 0 = Except.error e0 → oracle 1 = Except.ok c →
        generate_json api_key oracle = generate_json_post c) := by
  refine ⟨by unfold generate_json; rw [if_pos rfl], ?_, ?_⟩
  · intro hk h0 h1 h2
    unfold generate_json
    rw [if_neg hk]
    simp only [call_llm_with_retry, h0, h1, h2]
  · intro hk h0 h1
    unfold generate_json
    rw [if_neg hk]
    simp only [call_llm_with_retry, h0, h1]

/-- A transport oracle that fails on every one of the three attempts, with
distinguishable causes. -/
def failOracleLLM : Nat → Except String String := fun i =>
  match i with
  | 0 => Except.error "boom0"
  | 1 => Except.error "boom1"
  | _ => Except.error "boom2"

/-- Witness for C8: with a present credential and three failing transport
attempts, `generate_json` returns the terminal error carrying the third
(last) cause. -/
theorem C8_gateway_retry_behavior_witness :
    ("k" : String) ≠ ""
    ∧ generate_json "k" failOracleLLM = Except.error (LLMError.terminalError "boom2") :=
  ⟨by decide,
    (C8_gateway_retry_behavior "k" failOracleLLM "boom0" "boom1" "boom2" "").2.1
      (by decide) rfl rfl rfl⟩

/-- C9 counterexample: the raw output `{"a": "}"}` is pure JSON, so by the
claim it should be parsed directly (as the spec-modelled
`generate_json_post_spec` does). The code instead brace-isolates
unconditionally, counting the brace inside the string literal, truncates the
text to `{"a": "}` and raises a parse error — so the claimed "only if the
remaining text is not pure JSON" conditional does not describe the code
(client.py lines 136-152 always run the brace scan). -/
theorem C9_counterexample :
    generate_json_post "\x7b\"a\": \"\x7d\"\x7d"
      = Except.error (LLMError.parseError "\x7b\"a\": \"\x7d\"\x7d" "\x7b\"a\": \"\x7d")
    ∧ generate_json_post_spec "\x7b\"a\": \"\x7d\"\x7d"
      = Except.ok (JsonVal.obj [("a", JsonVal.str "\x7d")]) :=
  ⟨rfl, rfl⟩

/-- C9 (amended): the gateway post-processing strips a fenced code block,
then unconditionally isolates the span from the first `{` to its matching
`}` by brace-depth counting (braces inside string literals included) and
parses that span as JSON; on failure it raises a parse error carrying the
first 500 characters of the raw text and the cleaned text. It agrees with
the conditional description of the claim ("only if the remaining text is not pure
JSON") exactly when brace isolation leaves the fence-stripped text
unchanged. -/
theorem C9_postprocessing (raw : String) :
    ((∃ v, json_parse (isolateBraces (cleanFences (pyStrip raw))) = some v
        ∧ generate_json_post raw = Except.ok v)
      ∨ (json_parse (isolateBraces (cleanFences (pyStrip raw))) = none
        ∧ generate_json_post raw
          = Except.error (LLMError.parseError (pyTake 500 raw)
              (isolateBraces (cleanFences (pyStrip raw))))))
    ∧ (isolateBraces (cleanFences (pyStrip raw)) = cleanFences (pyStrip raw) →
        generate_json_post raw = generate_json_post_spec raw) := by
  constructor
  · simp only [generate_json_post]
    cases hp : json_parse (isolateBraces (cleanFences (pyStrip raw))) with
    | some v => exact Or.inl ⟨v, rfl, rfl⟩
    | none => exact Or.inr ⟨rfl, rfl⟩
  · intro hid
    simp only [generate_json_post, generate_json_post_spec]
    rw [hid]
    cases hp : json_parse (cleanFences (pyStrip raw)) with
    | some v => rfl
    | none => rfl

/-- Witness for C9 (amended): on the raw text `x` (no braces), brace
isolation is the identity, and the post-processing of the code agrees with the
spec-worded pipeline. -/
theorem C9_postprocessing_witness :
    isolateBraces (cleanFences (pyStrip "x")) = cleanFences (pyStrip "x")
    ∧ generate_json_post "x" = generate_json_post_spec "x" :=
  ⟨rfl, (C9_postprocessing "x").2 rfl⟩

end ExamGen
